import Mathlib

/-!
Verification development for the `llm_observability` repository: a read-only
dashboard / JSON API over an external SQLite log database.  The Python source
is shallowly embedded here: strings are `String` or `List Char`, nullable SQL
columns are `Option`, table absence is `Option (List Row)` on the database
state, and queries that would raise on a missing table run in `Except String`.
-/

/-- Python truthiness of an optional string (`if model:` in the source):
`None` and the empty string are falsy. -/
def truthy : Option String → Bool
  | none => false
  | some s => !(s == "")

/-- `str.lower()` on a character list (ASCII case folding, as both Python and
SQLite's default `LIKE` use for the characters these claims touch). -/
def lowerList (l : List Char) : List Char := l.map Char.toLower

/-- `str.find(needle)`: index of the first occurrence of `needle` in `hay`,
`none` when absent (Python returns -1).  An empty needle is found at 0. -/
def findSub (hay needle : List Char) : Option Nat :=
  if needle.isPrefixOf hay then some 0
  else
    match hay with
    | [] => none
    | _ :: hs => (findSub hs needle).map (· + 1)

/-- The literal `"..."` appended by the snippet functions. -/
def ellipsis : List Char := ['.', '.', '.']

namespace ApiSearch

/-- `create_snippet` from `llm_observability/api/search.py`. -/
def create_snippet (text query : List Char) (max_length : Nat := 200) : List Char :=
  if text = [] then []
  else
    match findSub (lowerList text) (lowerList query) with
    | none =>
      if text.length > max_length then text.take max_length ++ ellipsis else text
    | some pos =>
      let start := pos - 50
      let e := min text.length (pos + query.length + 150)
      let snippet := (text.drop start).take (e - start)
      let snippet := if start > 0 then ellipsis ++ snippet else snippet
      let snippet := if e < text.length then snippet ++ ellipsis else snippet
      snippet

end ApiSearch

namespace ViewsSearch

/-- `create_snippet` from `llm_observability/views/search.py`. -/
def create_snippet (text query : List Char) (max_length : Nat := 200) : List Char :=
  if text = [] then []
  else
    match findSub (lowerList text) (lowerList query) with
    | none =>
      if text.length > max_length then text.take max_length ++ ellipsis else text
    | some pos =>
      let start := pos - 50
      let e := min text.length (pos + query.length + 150)
      let snippet := (text.drop start).take (e - start)
      let snippet := if start > 0 then ellipsis ++ snippet else snippet
      let snippet := if e < text.length then snippet ++ ellipsis else snippet
      snippet

end ViewsSearch

/-- The snippet the specification describes, stated from the spec's words:
window `[max(0,p-50), min(len, p+len(query)+150))`, leading ellipsis exactly
when the window does not start at 0, trailing ellipsis exactly when it does
not reach the end; on a miss, the first `max_length` characters with a
trailing ellipsis exactly when the text is longer than `max_length`. -/
def snippet_spec (text query : List Char) (max_length : Nat) : List Char :=
  match findSub (lowerList text) (lowerList query) with
  | none =>
    if max_length < text.length then text.take max_length ++ ellipsis else text
  | some p =>
    let s := p - 50
    let e := min text.length (p + query.length + 150)
    (if s ≠ 0 then ellipsis else []) ++ (text.drop s).take (e - s)
      ++ (if e ≠ text.length then ellipsis else [])

/-! ## Data model

Rows of the external SQLite database, with nullable columns as `Option`.
A table that may be absent from the file is an `Option (List _)` on the
database state (`none` = the table is not in `db.table_names()`). -/

structure ResponseRow where
  id : String
  model : String
  prompt : Option String
  response : Option String
  conversation_id : Option String
  duration_ms : Option Int
  datetime_utc : Option String
  input_tokens : Option Int
  output_tokens : Option Int
deriving DecidableEq

structure ConversationRow where
  id : String
  name : Option String
  model : Option String
deriving DecidableEq

structure ToolRow where
  id : Int
  name : String
  description : Option String
  input_schema : Option String
  plugin : Option String
deriving DecidableEq

structure ToolCallRow where
  id : Int
  response_id : String
  tool_id : Int
  name : String
  arguments : Option String
  tool_call_id : Option String
deriving DecidableEq

structure ToolResultRow where
  id : Int
  response_id : String
  tool_id : Int
  name : String
  output : Option String
  exception : Option String
  tool_call_id : Option String
deriving DecidableEq

structure AttachmentRow where
  id : String
  type_ : Option String
  path : Option String
  url : Option String
  content : Option String
deriving DecidableEq

structure PromptAttachmentRow where
  response_id : String
  attachment_id : String
  order : Int
deriving DecidableEq

/-- The database state an endpoint sees: each optional table is present
(`some rows`) or absent (`none`); `responses_fts` records whether the
full-text index table exists. -/
structure DbState where
  responses : Option (List ResponseRow)
  conversations : Option (List ConversationRow)
  tools : Option (List ToolRow)
  tool_calls : Option (List ToolCallRow)
  tool_results : Option (List ToolResultRow)
  prompt_attachments : Option (List PromptAttachmentRow)
  attachments : Option (List AttachmentRow)
  responses_fts : Bool
deriving DecidableEq

/-- Executing a SQL statement against a table that is not in the file raises
`sqlite3.OperationalError: no such table`; in the embedding a table access is
an `Except` that fails on an absent table. -/
def getTable (name : String) : Option (List α) → Except String (List α)
  | some rows => .ok rows
  | none => .error ("no such table: " ++ name)

/-! ## ORDER BY

SQL `ORDER BY datetime_utc DESC` over a nullable TEXT column: strings compare
with the binary collation and `NULL` sorts below every string, hence last
under `DESC`.  The engine's row order is modelled by a stable insertion
sort with this key. -/

/-- Lexicographic comparison of character lists by code point — SQLite's
`BINARY` collation (code-point order coincides with UTF-8 byte order). -/
def strLeB : List Char → List Char → Bool
  | [], _ => true
  | _ :: _, [] => false
  | a :: as, b :: bs => if a == b then strLeB as bs else decide (a.val < b.val)

/-- `a <= b` under SQLite TEXT comparison. -/
def sqlStrLe (a b : String) : Bool := strLeB a.toList b.toList

/-- `a` may come before `b` under `ORDER BY datetime_utc DESC`. -/
def dtDescLe (a b : Option String) : Bool :=
  match a, b with
  | _, none => true
  | none, some _ => false
  | some x, some y => sqlStrLe y x

/-- Stable insertion sort by a boolean "may come before" relation. -/
def insertBy (le : α → α → Bool) (x : α) : List α → List α
  | [] => [x]
  | y :: ys => if le x y then x :: y :: ys else y :: insertBy le x ys

def sortBy (le : α → α → Bool) : List α → List α
  | [] => []
  | x :: xs => insertBy le x (sortBy le xs)

/-- Rows of `t` in the order `ORDER BY datetime_utc DESC` returns them. -/
def orderByDatetimeDesc (rows : List ResponseRow) : List ResponseRow :=
  sortBy (fun a b => dtDescLe a.datetime_utc b.datetime_utc) rows

/-! ## SQLite LIKE with `ESCAPE '\'`

`pattern` is matched against `text`: `%` matches any run of characters, `_`
any single character, a character following the escape `\` matches itself
literally, and ordinary characters compare ASCII-case-insensitively. -/

/-- All suffixes of a list, longest first (the last entry is `[]`). -/
def tails : List α → List (List α)
  | [] => [[]]
  | x :: xs => (x :: xs) :: tails xs

/-- `%` consumes zero or more characters, i.e. the rest of the pattern must
match some suffix of the text; `_` consumes exactly one; a character after
the escape matches itself literally; ordinary characters compare with ASCII
case folding. -/
def likeMatch : List Char → List Char → Bool
  | [], ts => ts.isEmpty
  | c :: ps, ts =>
    if c = '%' then (tails ts).any (fun ts2 => likeMatch ps ts2)
    else if c = '_' then
      match ts with
      | [] => false
      | _ :: ts2 => likeMatch ps ts2
    else if c = '\\' then
      match ps, ts with
      | [], _ => false
      | _ :: _, [] => false
      | c2 :: ps2, t :: ts2 => (t.toLower == c2.toLower) && likeMatch ps2 ts2
    else
      match ts with
      | [] => false
      | t :: ts2 => (t.toLower == c.toLower) && likeMatch ps ts2

/-- `query.replace("%", "\\%").replace("_", "\\_")` from `_search_like`
(character-wise: each pattern is a single character and the first pass
introduces no `_`, so the two sequential replaces act independently). -/
def escLike : List Char → List Char
  | [] => []
  | c :: cs => if c = '%' || c = '_' then '\\' :: c :: escLike cs else c :: escLike cs

/-- `like_pattern = f"%{safe_query}%"`. -/
def likePattern (query : List Char) : List Char :=
  '%' :: (escLike query ++ ['%'])

/-- A row passes `prompt LIKE :pattern ESCAPE '\' OR response LIKE :pattern
ESCAPE '\'` (a `NULL` column makes its disjunct not-true). -/
def likeRowMatch (query : List Char) (r : ResponseRow) : Bool :=
  (match r.prompt with
   | some p => likeMatch (likePattern query) p.toList
   | none => false) ||
  (match r.response with
   | some s => likeMatch (likePattern query) s.toList
   | none => false)

/-- Case-insensitive substring containment — the relation the specification
says the fallback search implements. -/
def containsCI (text query : List Char) : Bool :=
  (findSub (lowerList text) (lowerList query)).isSome

/-! ## `api/search.py`: the search endpoint -/

structure SearchResult where
  id : String
  model : String
  prompt : Option String
  response : Option String
  datetime_utc : Option String
  conversation_id : Option String
  prompt_snippet : Option (List Char)
  response_snippet : Option (List Char)
deriving DecidableEq

structure SearchResponse where
  query : String
  results : List SearchResult
  total : Nat
  limit : Nat
  offset : Nat
deriving DecidableEq

/-- `create_snippet(row[i], query) if row[i] else None` — a `NULL` or empty
field produces no snippet. -/
def snippetOpt (field : Option String) (query : String) : Option (List Char) :=
  match field with
  | some s => if s = "" then none else some (ApiSearch.create_snippet s.toList query.toList)
  | none => none

def rowToSearchResult (query : String) (r : ResponseRow) : SearchResult :=
  { id := r.id
    model := r.model
    prompt := r.prompt
    response := r.response
    datetime_utc := r.datetime_utc
    conversation_id := r.conversation_id
    prompt_snippet := snippetOpt r.prompt query
    response_snippet := snippetOpt r.response query }

/-- `_search_like`: count and page over `responses` filtered by the escaped
`LIKE` pattern, ordered by datetime descending.  The `FROM responses` in both
statements is unconditional, so the table must be present. -/
def search_like (db : DbState) (query : String) (limit offset : Nat) :
    Except String SearchResponse := do
  let rs ← getTable "responses" db.responses
  let matching := rs.filter (likeRowMatch query.toList)
  let total := matching.length
  let rows := ((orderByDatetimeDesc matching).drop offset).take limit
  return { query := query
           results := rows.map (rowToSearchResult query)
           total := total
           limit := limit
           offset := offset }

/-- Modelled from the spec: the full-text index's phrase-containment match
(the tokenizer lives in SQLite, outside this repository).  The index shadows
`responses` 1:1, so a row matches when either indexed field contains the
query phrase case-insensitively. -/
def ftsPhraseMatch (query : String) (r : ResponseRow) : Bool :=
  (match r.prompt with
   | some p => containsCI p.toList query.toList
   | none => false) ||
  (match r.response with
   | some s => containsCI s.toList query.toList
   | none => false)

/-- `_search_fts`: the query text is interpolated into the SQL string with
only `"` doubled, so a `'` in it breaks the SQL literal and the statement
raises (modelled from the spec: "the indexed query execution fails ... e.g.,
malformed query").  Both `responses_fts` and `responses` must be present. -/
def search_fts (db : DbState) (query : String) (limit offset : Nat) :
    Except String SearchResponse := do
  if query.toList.contains '\'' then
    throw "malformed FTS query"
  if !db.responses_fts then
    throw "no such table: responses_fts"
  let rs ← getTable "responses" db.responses
  let matching := rs.filter (ftsPhraseMatch query)
  let total := matching.length
  let rows := ((orderByDatetimeDesc matching).drop offset).take limit
  return { query := query
           results := rows.map (rowToSearchResult query)
           total := total
           limit := limit
           offset := offset }

/-- The `/search` endpoint: FTS when the index table exists, falling back to
`LIKE` when it does not or when the FTS query raises. -/
def search (db : DbState) (q : String) (limit offset : Nat) :
    Except String SearchResponse :=
  if !db.responses_fts then
    search_like db q limit offset
  else
    match search_fts db q limit offset with
    | .ok r => .ok r
    | .error _ => search_like db q limit offset

/-! ## `api/responses.py`: list endpoint and attachments -/

/-- The optional query parameters of `list_responses`. -/
structure ResponseFilter where
  model : Option String
  conversation_id : Option String
  start_date : Option String
  end_date : Option String
deriving DecidableEq

/-- Whether any `WHERE` clause is generated (each filter is added under
Python truthiness). -/
def whereActive (f : ResponseFilter) : Bool :=
  truthy f.model || truthy f.conversation_id || truthy f.start_date || truthy f.end_date

/-- The conjunction of the generated clauses, with SQL three-valued logic:
a comparison against a `NULL` column is not-true. -/
def matchesFilter (f : ResponseFilter) (r : ResponseRow) : Bool :=
  (if truthy f.model then r.model == f.model.getD "" else true) &&
  (if truthy f.conversation_id then
      match r.conversation_id with
      | some c => c == f.conversation_id.getD ""
      | none => false
    else true) &&
  (if truthy f.start_date then
      match r.datetime_utc with
      | some d => sqlStrLe (f.start_date.getD "") d
      | none => false
    else true) &&
  (if truthy f.end_date then
      match r.datetime_utc with
      | some d => sqlStrLe d (f.end_date.getD "")
      | none => false
    else true)

structure ResponseListResponse where
  items : List ResponseRow
  total : Nat
  limit : Nat
  offset : Nat
deriving DecidableEq

/-- `list_responses`: empty payload when the `responses` table is absent;
otherwise a COUNT over the built predicate (or `db["responses"].count` when
no clause was generated) and a page of `rows_where(..., order_by=
"datetime_utc desc", limit, offset)`. -/
def list_responses (db : DbState) (f : ResponseFilter) (limit offset : Nat) :
    Except String ResponseListResponse :=
  match db.responses with
  | none => .ok { items := [], total := 0, limit := limit, offset := offset }
  | some rs =>
    let matching := rs.filter (matchesFilter f)
    let total := if whereActive f then matching.length else rs.length
    let items := ((orderByDatetimeDesc matching).drop offset).take limit
    .ok { items := items, total := total, limit := limit, offset := offset }

/-- The attachment object placed in the payload: the row's columns without
`content` (`att.pop("content", None)`), plus the link's `order`. -/
structure AttachmentOut where
  id : String
  type_ : Option String
  path : Option String
  url : Option String
  order : Int
deriving DecidableEq

def attachmentOut (a : AttachmentRow) (ord : Int) : AttachmentOut :=
  { id := a.id, type_ := a.type_, path := a.path, url := a.url, order := ord }

/-- `(attachments.filter (·.id == aid)).head?` — `rows_where("id = ?")` with
`if rows:` taking the first row. -/
def lookupAttachment (atts : List AttachmentRow) (aid : String) : Option AttachmentRow :=
  (atts.filter (fun a => a.id == aid)).head?

/-- `get_response_attachments`: `[]` when `prompt_attachments` is absent or
holds no link for the response; otherwise each linked attachment row with
`content` dropped, sorted by the link's `order` (Python's stable `sorted`). -/
def get_response_attachments (db : DbState) (response_id : String) :
    Except String (List AttachmentOut) :=
  match db.prompt_attachments with
  | none => .ok []
  | some links =>
    let attachment_links := links.filter (fun l => l.response_id == response_id)
    if attachment_links = [] then .ok []
    else do
      let atts ← getTable "attachments" db.attachments
      let outs := attachment_links.filterMap (fun l =>
        (lookupAttachment atts l.attachment_id).map (fun a => attachmentOut a l.order))
      return sortBy (fun a b => decide (a.order ≤ b.order)) outs

/-! ## `api/metrics.py` -/

/-- The `date_filter` fragment appended to each metrics statement, under SQL
three-valued logic on a `NULL` datetime and Python truthiness of the
parameters. -/
def datePass (start_date end_date : Option String) (dt : Option String) : Bool :=
  (if truthy start_date then
      match dt with
      | some d => sqlStrLe (start_date.getD "") d
      | none => false
    else true) &&
  (if truthy end_date then
      match dt with
      | some d => sqlStrLe d (end_date.getD "")
      | none => false
    else true)

structure MetricsSummary where
  total_responses : Nat
  total_conversations : Nat
  total_input_tokens : Int
  total_output_tokens : Int
  total_tokens : Int
  avg_duration_ms : Option ℚ
  avg_input_tokens : Option ℚ
  avg_output_tokens : Option ℚ
  total_tool_calls : Nat
  total_tool_errors : Nat
  unique_models : Nat
deriving DecidableEq

/-- The model's default, `MetricsSummary()` in the source. -/
def MetricsSummary.empty : MetricsSummary :=
  { total_responses := 0, total_conversations := 0, total_input_tokens := 0
    total_output_tokens := 0, total_tokens := 0, avg_duration_ms := none
    avg_input_tokens := none, avg_output_tokens := none, total_tool_calls := 0
    total_tool_errors := 0, unique_models := 0 }

/-- SQL `AVG(col)`: mean of the non-`NULL` values, `NULL` when there are
none. -/
def sqlAvg (vals : List Int) : Option ℚ :=
  if vals.length = 0 then none else some ((vals.sum : ℚ) / (vals.length : ℚ))

/-- SQL `COALESCE(SUM(col), 0)`: `SUM` skips `NULL`s and `COALESCE` turns an
empty sum's `NULL` into 0. -/
def sqlSum0 (vals : List (Option Int)) : Int :=
  (vals.filterMap id).sum

/-- `get_metrics_summary`: the `responses` statement carries the date filter;
the conversation count, tool-call count and tool-error count are separate
unfiltered statements over their own tables (each gated on table
existence). -/
def get_metrics_summary (db : DbState) (start_date end_date : Option String) :
    MetricsSummary :=
  match db.responses with
  | none => MetricsSummary.empty
  | some rs =>
    let filtered := rs.filter (fun r => datePass start_date end_date r.datetime_utc)
    let total_input := sqlSum0 (filtered.map (·.input_tokens))
    let total_output := sqlSum0 (filtered.map (·.output_tokens))
    { total_responses := filtered.length
      total_conversations :=
        match db.conversations with
        | some cs => cs.length
        | none => 0
      total_input_tokens := total_input
      total_output_tokens := total_output
      total_tokens := total_input + total_output
      avg_duration_ms := sqlAvg (filtered.filterMap (·.duration_ms))
      avg_input_tokens := sqlAvg (filtered.filterMap (·.input_tokens))
      avg_output_tokens := sqlAvg (filtered.filterMap (·.output_tokens))
      total_tool_calls :=
        match db.tool_calls with
        | some tcs => tcs.length
        | none => 0
      total_tool_errors :=
        match db.tool_results with
        | some trs => trs.countP (fun t => t.exception.isSome)
        | none => 0
      unique_models := (filtered.map (·.model)).dedup.length }

structure LatencyBucket where
  range : String
  count : Nat
deriving DecidableEq

/-- The fixed bucket list of `get_latency_distribution` (`high = none` is the
unbounded final bucket). -/
def latencyBuckets : List (Int × Option Int × String) :=
  [(0, some 100, "0-100ms"),
   (100, some 500, "100-500ms"),
   (500, some 1000, "500ms-1s"),
   (1000, some 2000, "1-2s"),
   (2000, some 5000, "2-5s"),
   (5000, some 10000, "5-10s"),
   (10000, some 30000, "10-30s"),
   (30000, some 60000, "30-60s"),
   (60000, none, "60s+")]

/-- `duration_ms IS NOT NULL AND low <= duration_ms [AND duration_ms < high]`. -/
def inLatencyBucket (low : Int) (high : Option Int) (d : Option Int) : Bool :=
  match d with
  | none => false
  | some v =>
    decide (low ≤ v) &&
      (match high with
       | some h => decide (v < h)
       | none => true)

/-- `get_latency_distribution`: one COUNT per bucket, each also carrying the
date filter; `[]` when the `responses` table is absent. -/
def get_latency_distribution (db : DbState) (start_date end_date : Option String) :
    List LatencyBucket :=
  match db.responses with
  | none => []
  | some rs =>
    latencyBuckets.map (fun b =>
      { range := b.2.2
        count := rs.countP (fun r =>
          inLatencyBucket b.1 b.2.1 r.duration_ms &&
            datePass start_date end_date r.datetime_utc) })

/-! ## `api/tools.py`: `list_tools` -/

structure ToolDefinition where
  id : Int
  name : String
  description : Option String
  input_schema : Option String
  plugin : Option String
  call_count : Nat
  result_count : Nat
  error_count : Nat
deriving DecidableEq

structure ToolListResponse where
  items : List ToolDefinition
  total : Nat
deriving DecidableEq

/-- `list_tools`: `{items: [], total: 0}` when `tools` is absent; otherwise
one of three statements depending on which of `tool_calls`/`tool_results`
exist, LEFT JOINing per-tool aggregates and ordering by call count
descending (no ORDER BY in the bare branch). -/
def list_tools (db : DbState) : Except String ToolListResponse :=
  match db.tools with
  | none => .ok { items := [], total := 0 }
  | some tools =>
    let items :=
      match db.tool_calls, db.tool_results with
      | some tcs, some trs =>
        sortBy (fun a b => decide (b.call_count ≤ a.call_count))
          (tools.map (fun t =>
            { id := t.id, name := t.name, description := t.description
              input_schema := t.input_schema, plugin := t.plugin
              call_count := tcs.countP (fun c => c.tool_id == t.id)
              result_count := trs.countP (fun r => r.tool_id == t.id)
              error_count := trs.countP (fun r =>
                r.tool_id == t.id && r.exception.isSome) }))
      | some tcs, none =>
        sortBy (fun a b => decide (b.call_count ≤ a.call_count))
          (tools.map (fun t =>
            { id := t.id, name := t.name, description := t.description
              input_schema := t.input_schema, plugin := t.plugin
              call_count := tcs.countP (fun c => c.tool_id == t.id)
              result_count := 0, error_count := 0 }))
      | none, _ =>
        tools.map (fun t =>
          { id := t.id, name := t.name, description := t.description
            input_schema := t.input_schema, plugin := t.plugin
            call_count := 0, result_count := 0, error_count := 0 })
    .ok { items := items, total := items.length }

/-! ## `database.py`: `Database.validate` -/

inductive DbError where
  | databaseNotFound
  | invalidDatabase
deriving DecidableEq

/-- What sits at the configured path: no file, or a database file with a set
of tables. -/
inductive FileState where
  | absent
  | present (tables : List String)
deriving DecidableEq

/-- `Database.validate`: `DatabaseNotFoundError` when the file does not
exist, `InvalidDatabaseError` when it lacks the `_llm_migrations` marker
table, success otherwise. -/
def validate : FileState → Except DbError Unit
  | .absent => .error .databaseNotFound
  | .present tables =>
    if "_llm_migrations" ∈ tables then .ok () else .error .invalidDatabase

/-! ## SQL text construction

The exact strings the query builders interpolate, for the bound-parameter
hyperproperty (surrounding whitespace of the Python triple-quoted literals
elided). -/

/-- `query.replace('"', '""')` character-wise (the pattern is a single
character, so Python's `str.replace` doubles each `"` independently). -/
def ftsEscapeList : List Char → List Char
  | [] => []
  | c :: cs => if c = '\x22' then '\x22' :: '\x22' :: ftsEscapeList cs
               else c :: ftsEscapeList cs

/-- `safe_query = query.replace('"', '""')` in `_search_fts`. -/
def ftsEscape (query : String) : String :=
  ⟨ftsEscapeList query.toList⟩

/-- The `count_query` f-string of `_search_fts`: the escaped query text is
interpolated into the SQL. -/
def fts_count_sql (query : String) : String :=
  "SELECT COUNT(*) FROM responses_fts WHERE responses_fts MATCH '\x22"
    ++ ftsEscape query ++ "\x22'"

/-- The `search_query` f-string of `_search_fts`. -/
def fts_search_sql (query : String) : String :=
  "SELECT r.id, r.model, r.prompt, r.response, r.datetime_utc, r.conversation_id "
    ++ "FROM responses r JOIN responses_fts fts ON r.rowid = fts.rowid "
    ++ "WHERE responses_fts MATCH '\x22" ++ ftsEscape query ++ "\x22' "
    ++ "ORDER BY r.datetime_utc DESC LIMIT :limit OFFSET :offset"

/-- The `where_clauses` list built by `list_responses`. -/
def responsesWhereClauses (f : ResponseFilter) : List String :=
  (if truthy f.model then ["model = :model"] else []) ++
  (if truthy f.conversation_id then ["conversation_id = :conversation_id"] else []) ++
  (if truthy f.start_date then ["datetime_utc >= :start_date"] else []) ++
  (if truthy f.end_date then ["datetime_utc <= :end_date"] else [])

/-- `where = " AND ".join(where_clauses) if where_clauses else None`. -/
def responsesWhere (f : ResponseFilter) : Option String :=
  if responsesWhereClauses f = [] then none
  else some (String.intercalate " AND " (responsesWhereClauses f))

/-- The COUNT statement of `list_responses` (`None` when the code uses
`db["responses"].count` instead of SQL text with a WHERE). -/
def responses_count_sql (f : ResponseFilter) : Option String :=
  (responsesWhere f).map (fun w => "SELECT COUNT(*) FROM responses WHERE " ++ w)

/-- The bound-parameter map of `list_responses`. -/
def responsesParams (f : ResponseFilter) : List (String × String) :=
  (if truthy f.model then [("model", f.model.getD "")] else []) ++
  (if truthy f.conversation_id then [("conversation_id", f.conversation_id.getD "")] else []) ++
  (if truthy f.start_date then [("start_date", f.start_date.getD "")] else []) ++
  (if truthy f.end_date then [("end_date", f.end_date.getD "")] else [])

/-- The `count_query` of `_search_like` — a fixed literal; the pattern
travels in the parameter map. -/
def like_count_sql : String :=
  "SELECT COUNT(*) FROM responses WHERE prompt LIKE :pattern ESCAPE '\\' "
    ++ "OR response LIKE :pattern ESCAPE '\\'"

/-- The parameter map of the `_search_like` count statement. -/
def likeCountParams (query : String) : List (String × String) :=
  [("pattern", "%" ++ (query.replace "%" "\\%").replace "_" "\\_" ++ "%")]

/-- The truthiness shape of a filter: which of the four optional parameters
generate a clause. -/
def filterShape (f : ResponseFilter) : Bool × Bool × Bool × Bool :=
  (truthy f.model, truthy f.conversation_id, truthy f.start_date, truthy f.end_date)

/-! ## Sample databases and specification-side definitions -/

def sampleResponse : ResponseRow :=
  { id := "r1", model := "m", prompt := some "hello world"
    response := some "a reply", conversation_id := none
    duration_ms := some 42, datetime_utc := some "2024-01-01T00:00:00"
    input_tokens := some 10, output_tokens := some 5 }

def sampleDb : DbState :=
  { responses := some [sampleResponse], conversations := some []
    tools := some [], tool_calls := some [], tool_results := some []
    prompt_attachments := some [], attachments := some []
    responses_fts := false }

def c4DbNoResponses : DbState :=
  { responses := none, conversations := none, tools := none, tool_calls := none
    tool_results := none, prompt_attachments := none, attachments := none
    responses_fts := false }

def c4NegRow : ResponseRow :=
  { id := "r1", model := "m", prompt := none, response := none
    conversation_id := none, duration_ms := some (-1)
    datetime_utc := some "2024-01-01T00:00:00", input_tokens := none
    output_tokens := none }

def c4DbNeg : DbState :=
  { responses := some [c4NegRow], conversations := none, tools := none
    tool_calls := none, tool_results := none, prompt_attachments := none
    attachments := none, responses_fts := false }

/-- The tool-call count the C5 claim describes: only tool calls whose
related response's datetime lies within the supplied bounds. -/
def spec_tool_calls_within (db : DbState) (start_date end_date : Option String) : Nat :=
  (db.tool_calls.getD []).countP (fun tc =>
    (db.responses.getD []).any (fun r =>
      r.id == tc.response_id && datePass start_date end_date r.datetime_utc))

def c5Response : ResponseRow :=
  { id := "r1", model := "m", prompt := none, response := none
    conversation_id := none, duration_ms := none
    datetime_utc := some "2024-01-01T00:00:00", input_tokens := none
    output_tokens := none }

def c5Db : DbState :=
  { responses := some [c5Response], conversations := none, tools := none
    tool_calls := some [{ id := 1, response_id := "r1", tool_id := 1
                          name := "t", arguments := none, tool_call_id := none }]
    tool_results := none, prompt_attachments := none, attachments := none
    responses_fts := false }

def c6EmptyDb : DbState :=
  { responses := none, conversations := none, tools := none, tool_calls := none
    tool_results := none, prompt_attachments := none, attachments := none
    responses_fts := false }

/-- A database identical except for the binary `content` column of the
`attachments` table (each row's content rewritten by `g`). -/
def mapAttachmentContent (g : AttachmentRow → Option String) (db : DbState) : DbState :=
  { db with attachments :=
      db.attachments.map (fun atts => atts.map (fun a => { a with content := g a })) }

/-- The row predicate the specification ascribes to the fallback search:
the prompt or response contains the query as a case-insensitive substring
(a `NULL` field matches nothing). -/
def ciRowMatch (query : String) (r : ResponseRow) : Bool :=
  (match r.prompt with
   | some p => containsCI p.toList query.toList
   | none => false) ||
  (match r.response with
   | some s => containsCI s.toList query.toList
   | none => false)

def c8Row : ResponseRow :=
  { id := "r1", model := "m", prompt := some "100%", response := none
    conversation_id := none, duration_ms := none
    datetime_utc := some "2024-01-01T00:00:00", input_tokens := none
    output_tokens := none }

def c8Db : DbState :=
  { responses := some [c8Row], conversations := none, tools := none
    tool_calls := none, tool_results := none, prompt_attachments := none
    attachments := none, responses_fts := false }

/-! ## Theorems -/

/-- C10: the snippet function of the JSON API (`api/search.py`) and the one
of the HTML search view (`views/search.py`) are extensionally equal: for
every text, query and `max_length` both return the same string. -/
theorem c10_snippet_functions_equal (text query : List Char) (max_length : Nat) :
    ApiSearch.create_snippet text query max_length
      = ViewsSearch.create_snippet text query max_length := rfl

/-- C7: `Database.validate` raises the not-found error iff the file is
absent, the invalid-format error iff the file exists but lacks the
`_llm_migrations` marker table, and returns normally in every other case. -/
theorem c7_validate_characterisation (fs : FileState) :
    (validate fs = .error .databaseNotFound ↔ fs = .absent) ∧
    (validate fs = .error .invalidDatabase ↔
      ∃ ts, fs = .present ts ∧ "_llm_migrations" ∉ ts) ∧
    (validate fs = .ok () ↔ ∃ ts, fs = .present ts ∧ "_llm_migrations" ∈ ts) := by
  cases fs with
  | absent => simp [validate]
  | present ts =>
    by_cases h : "_llm_migrations" ∈ ts <;> simp [validate, h]

/-- C2: for non-empty text, `create_snippet` returns exactly the snippet the
specification describes: on a miss, the first `max_length` characters with a
trailing ellipsis exactly when truncated; on a first case-insensitive match
at `p`, the window `[max(0,p-50), min(len, p+|query|+150))` with leading and
trailing ellipses exactly when the window misses an end; in particular a
match at position 0 gets no leading ellipsis and a match ending at the text's
end gets no trailing ellipsis. -/
theorem c2_create_snippet_spec (text query : List Char) (m : Nat) (h : text ≠ []) :
    ApiSearch.create_snippet text query m = snippet_spec text query m ∧
    (findSub (lowerList text) (lowerList query) = some 0 →
      ApiSearch.create_snippet text query m =
        text.take (min text.length (query.length + 150)) ++
          (if min text.length (query.length + 150) < text.length then ellipsis else [])) ∧
    (∀ p, findSub (lowerList text) (lowerList query) = some p →
      p + query.length = text.length →
      ApiSearch.create_snippet text query m =
        (if 0 < p - 50 then ellipsis else []) ++
          (text.drop (p - 50)).take (text.length - (p - 50))) := by
  refine ⟨?_, ?_, ?_⟩
  · unfold ApiSearch.create_snippet snippet_spec
    rw [if_neg h]
    cases hfind : findSub (lowerList text) (lowerList query) with
    | none => rfl
    | some p =>
      simp only []
      have hmin : min text.length (p + query.length + 150) ≤ text.length :=
        Nat.min_le_left _ _
      by_cases hs : 0 < p - 50 <;> by_cases he : min text.length (p + query.length + 150) < text.length
      · rw [if_pos hs, if_pos he, if_pos (by omega), if_pos (by omega), List.append_assoc]
      · rw [if_pos hs, if_neg he, if_pos (by omega), if_neg (by omega), List.append_nil]
      · rw [if_neg hs, if_pos he, if_neg (by omega), if_pos (by omega), List.nil_append]
      · rw [if_neg hs, if_neg he, if_neg (by omega), if_neg (by omega),
          List.nil_append, List.append_nil]
  · intro hfind
    unfold ApiSearch.create_snippet
    rw [if_neg h, hfind]
    simp only [Nat.zero_sub, Nat.zero_add, List.drop_zero, Nat.sub_zero,
      Nat.lt_irrefl, if_false]
    split_ifs <;> simp
  · intro p hfind hend
    unfold ApiSearch.create_snippet
    rw [if_neg h, hfind]
    have he : min text.length (p + query.length + 150) = text.length := by omega
    simp only [he, Nat.lt_irrefl, if_false]
    by_cases hs : 0 < p - 50
    · rw [if_pos hs, if_pos hs]
    · rw [if_neg hs, if_neg hs, List.nil_append]

/-- Witness for C2 at the spec's own example inputs. -/
theorem c2_create_snippet_spec_witness :
    "The quick brown fox".toList ≠ [] ∧
    ApiSearch.create_snippet "The quick brown fox".toList "quick".toList 200
      = snippet_spec "The quick brown fox".toList "quick".toList 200 :=
  ⟨by decide, (c2_create_snippet_spec "The quick brown fox".toList "quick".toList 200
    (by decide)).1⟩

/-- C3 counterexample: the FTS search path interpolates the caller's query
text into the SQL string, so two runs with different query values produce
different SQL text — the claim that the SQL text is independent of every
caller-supplied value is false. -/
theorem c3_counterexample : fts_count_sql "a" ≠ fts_count_sql "b" := by decide

/-- C3 as amended: in `list_responses` the SQL text depends only on which
filters are present (their values travel in the bound-parameter map), and
the fallback `LIKE` statement is a fixed literal with the pattern bound as a
parameter; the FTS path, however, interpolates the quote-escaped query text
into the SQL string, whose text therefore varies with the value. -/
theorem c3_amended_sql_parameterisation :
    (∀ f1 f2 : ResponseFilter, filterShape f1 = filterShape f2 →
      responses_count_sql f1 = responses_count_sql f2 ∧
      responsesWhere f1 = responsesWhere f2 ∧
      (responsesParams f1).map Prod.fst = (responsesParams f2).map Prod.fst) ∧
    (∀ q : String, (likeCountParams q).map Prod.fst = ["pattern"]) ∧
    (∃ q1 q2 : String, fts_count_sql q1 ≠ fts_count_sql q2) := by
  refine ⟨?_, fun _ => rfl, "a", "b", by decide⟩
  intro f1 f2 hshape
  obtain ⟨h1, h2, h3, h4⟩ : truthy f1.model = truthy f2.model ∧
      truthy f1.conversation_id = truthy f2.conversation_id ∧
      truthy f1.start_date = truthy f2.start_date ∧
      truthy f1.end_date = truthy f2.end_date := by
    simpa [filterShape, Prod.ext_iff] using hshape
  refine ⟨?_, ?_, ?_⟩ <;>
    simp only [responses_count_sql, responsesWhere, responsesWhereClauses,
      responsesParams, h1, h2, h3, h4, List.map_append]
  all_goals cases truthy f2.model <;> cases truthy f2.conversation_id <;>
    cases truthy f2.start_date <;> cases truthy f2.end_date <;> rfl

/-- When no clause is generated, every row satisfies the (empty) predicate. -/
theorem matchesFilter_of_not_whereActive (f : ResponseFilter)
    (h : whereActive f = false) (r : ResponseRow) : matchesFilter f r = true := by
  have h' := h
  simp only [whereActive, Bool.or_eq_false_iff] at h'
  obtain ⟨⟨⟨hm, hc⟩, hs⟩, he⟩ := h'
  simp [matchesFilter, hm, hc, hs, he]

/-- C1: with the `responses` table present and a valid page, `list_responses`
returns items that are exactly rows `[offset, offset+limit)` of the filtered
rows ordered by datetime descending, at most `limit` of them, with `total`
the count of rows matching the identical predicate; no matching rows gives
an empty page with `total = 0`, never an error. -/
theorem c1_list_responses_pagination (db : DbState) (f : ResponseFilter)
    (limit offset : Nat) (rs : List ResponseRow) (h : db.responses = some rs)
    (h1 : 1 ≤ limit) (h2 : limit ≤ 500) :
    list_responses db f limit offset =
      .ok { items := ((orderByDatetimeDesc (rs.filter (matchesFilter f))).drop offset).take limit
            total := (rs.filter (matchesFilter f)).length
            limit := limit, offset := offset } ∧
    (((orderByDatetimeDesc (rs.filter (matchesFilter f))).drop offset).take limit).length
      ≤ limit ∧
    (rs.filter (matchesFilter f) = [] →
      list_responses db f limit offset =
        .ok { items := [], total := 0, limit := limit, offset := offset }) := by
  have htotal : (if whereActive f then (rs.filter (matchesFilter f)).length
      else rs.length) = (rs.filter (matchesFilter f)).length := by
    by_cases hw : whereActive f
    · rw [if_pos hw]
    · rw [if_neg hw,
        List.filter_eq_self.mpr
          (fun a _ => matchesFilter_of_not_whereActive f (by simpa using hw) a)]
  refine ⟨?_, List.length_take_le _ _, ?_⟩
  · simp only [list_responses, h, htotal]
  · intro hempty
    have hz : (if whereActive f then (rs.filter (matchesFilter f)).length
        else rs.length) = 0 := by rw [htotal, hempty]; rfl
    simp only [list_responses, h]
    rw [hz, hempty]
    simp [orderByDatetimeDesc, sortBy]

/-- Witness for C1 at a one-row database with no filters. -/
theorem c1_list_responses_pagination_witness :
    list_responses sampleDb ⟨none, none, none, none⟩ 50 0 =
      .ok { items := (((orderByDatetimeDesc
              (([sampleResponse]).filter (matchesFilter ⟨none, none, none, none⟩)))).drop 0).take 50
            total := (([sampleResponse]).filter (matchesFilter ⟨none, none, none, none⟩)).length
            limit := 50, offset := 0 } :=
  (c1_list_responses_pagination sampleDb ⟨none, none, none, none⟩ 50 0 [sampleResponse]
    rfl (by decide) (by decide)).1

set_option maxHeartbeats 1000000 in
/-- Sum over the nine buckets of one row's indicator: a non-null duration
within the date filter is counted exactly once when it is nonnegative and
never when it is negative. -/
theorem latency_indicator (dm : Option Int) (b : Bool) :
    (latencyBuckets.map (fun bu =>
        if (inLatencyBucket bu.1 bu.2.1 dm && b) = true then (1 : Nat) else 0)).sum
      = if ((match dm with | some d => decide (0 ≤ d) | none => false) && b) = true
          then 1 else 0 := by
  cases dm with
  | none => simp [latencyBuckets, inLatencyBucket]
  | some d =>
    cases b with
    | false => simp [latencyBuckets, inLatencyBucket]
    | true =>
      simp only [latencyBuckets, inLatencyBucket, Bool.and_true, List.map_cons,
        List.map_nil, List.sum_cons, List.sum_nil, Bool.and_eq_true,
        decide_eq_true_eq]
      simp only [and_true]
      split_ifs <;> omega

/-- The nine bucket counts sum to the number of rows whose duration is
non-null and nonnegative and which pass the date filter. -/
theorem latency_bucket_sum (p : ResponseRow → Bool) (rs : List ResponseRow) :
    (latencyBuckets.map (fun bu => rs.countP (fun r =>
        inLatencyBucket bu.1 bu.2.1 r.duration_ms && p r))).sum
      = rs.countP (fun r =>
          (match r.duration_ms with | some d => decide (0 ≤ d) | none => false)
            && p r) := by
  induction rs with
  | nil => simp [latencyBuckets]
  | cons r rs ih =>
    have hind := latency_indicator r.duration_ms (p r)
    simp only [latencyBuckets, List.map_cons, List.map_nil, List.sum_cons,
      List.sum_nil, List.countP_cons] at hind ih ⊢
    omega

/-- C4 counterexample: with the `responses` table absent the operation
returns an empty list, not nine buckets; and a row whose non-null duration
is negative falls in no bucket, so the bucket counts do not sum to the count
of rows with non-null duration. -/
theorem c4_counterexample :
    (get_latency_distribution c4DbNoResponses none none).length ≠ 9 ∧
    ((get_latency_distribution c4DbNeg none none).map (fun b => b.count)).sum
      ≠ [c4NegRow].countP (fun r => r.duration_ms.isSome) := by decide

/-- C4 as amended: whenever the `responses` table exists, the latency
operation returns exactly the nine fixed buckets in ascending-boundary order
with their fixed labels, each counting the rows with non-null duration in
its half-open range that pass the date filter; the counts sum to the count
of rows with non-null *nonnegative* duration passing the date filter (a
negative duration falls in no bucket); when `responses` is absent the result
is the empty list. -/
theorem c4_latency_histogram (db : DbState) (start_date end_date : Option String)
    (rs : List ResponseRow) (h : db.responses = some rs) :
    (get_latency_distribution db start_date end_date).map (fun b => b.range)
      = ["0-100ms", "100-500ms", "500ms-1s", "1-2s", "2-5s", "5-10s",
         "10-30s", "30-60s", "60s+"] ∧
    (get_latency_distribution db start_date end_date).length = 9 ∧
    (get_latency_distribution db start_date end_date)
      = latencyBuckets.map (fun bu =>
          { range := bu.2.2
            count := rs.countP (fun r => inLatencyBucket bu.1 bu.2.1 r.duration_ms
              && datePass start_date end_date r.datetime_utc) }) ∧
    ((get_latency_distribution db start_date end_date).map (fun b => b.count)).sum
      = rs.countP (fun r =>
          (match r.duration_ms with | some d => decide (0 ≤ d) | none => false)
            && datePass start_date end_date r.datetime_utc) ∧
    (∀ db' : DbState, db'.responses = none →
      get_latency_distribution db' start_date end_date = []) := by
  refine ⟨?_, ?_, ?_, ?_, ?_⟩
  · simp [get_latency_distribution, h, latencyBuckets]
  · simp [get_latency_distribution, h, latencyBuckets]
  · simp [get_latency_distribution, h]
  · simp only [get_latency_distribution, h, List.map_map]
    exact latency_bucket_sum (fun r => datePass start_date end_date r.datetime_utc) rs
  · intro db' h'
    simp [get_latency_distribution, h']

/-- Witness for C4's amended theorem on a one-row database. -/
theorem c4_latency_histogram_witness :
    (get_latency_distribution sampleDb none none).map (fun b => b.range)
      = ["0-100ms", "100-500ms", "500ms-1s", "1-2s", "2-5s", "5-10s",
         "10-30s", "30-60s", "60s+"] :=
  (c4_latency_histogram sampleDb none none [sampleResponse] rfl).1

/-- C5 counterexample: with a `start_date` past every response, the summary
still reports the tool call attached to the (out-of-bounds) response — the
tool-call count is not computed over only the rows within the bounds. -/
theorem c5_counterexample :
    (get_metrics_summary c5Db (some "2025-01-01") none).total_tool_calls
      ≠ spec_tool_calls_within c5Db (some "2025-01-01") none := by decide

/-- C5 as amended: the `[start_date, end_date]` filter (inclusive,
string-compared) is applied to every metric computed from the `responses`
table — response count, token sums, averages, distinct model count — but the
conversation count, tool-call count and tool-error count are computed over
their whole tables, independent of the supplied bounds. -/
theorem c5_summary_date_filter (db : DbState) (start_date end_date : Option String)
    (rs : List ResponseRow) (h : db.responses = some rs) :
    (get_metrics_summary db start_date end_date).total_responses
      = (rs.filter (fun r => datePass start_date end_date r.datetime_utc)).length ∧
    (get_metrics_summary db start_date end_date).total_input_tokens
      = sqlSum0 ((rs.filter (fun r => datePass start_date end_date r.datetime_utc)).map
          (fun r => r.input_tokens)) ∧
    (get_metrics_summary db start_date end_date).total_output_tokens
      = sqlSum0 ((rs.filter (fun r => datePass start_date end_date r.datetime_utc)).map
          (fun r => r.output_tokens)) ∧
    (get_metrics_summary db start_date end_date).avg_duration_ms
      = sqlAvg ((rs.filter (fun r => datePass start_date end_date r.datetime_utc)).filterMap
          (fun r => r.duration_ms)) ∧
    (get_metrics_summary db start_date end_date).unique_models
      = ((rs.filter (fun r => datePass start_date end_date r.datetime_utc)).map
          (fun r => r.model)).dedup.length ∧
    (get_metrics_summary db start_date end_date).total_tool_calls
      = (db.tool_calls.getD []).length ∧
    (get_metrics_summary db start_date end_date).total_conversations
      = (db.conversations.getD []).length ∧
    (get_metrics_summary db start_date end_date).total_tool_errors
      = (db.tool_results.getD []).countP (fun t => t.exception.isSome) ∧
    (∀ s' e' : Option String,
      (get_metrics_summary db s' e').total_tool_calls
        = (get_metrics_summary db start_date end_date).total_tool_calls ∧
      (get_metrics_summary db s' e').total_conversations
        = (get_metrics_summary db start_date end_date).total_conversations ∧
      (get_metrics_summary db s' e').total_tool_errors
        = (get_metrics_summary db start_date end_date).total_tool_errors) := by
  refine ⟨?_, ?_, ?_, ?_, ?_, ?_, ?_, ?_, ?_⟩
  · simp [get_metrics_summary, h]
  · simp [get_metrics_summary, h]
  · simp [get_metrics_summary, h]
  · simp [get_metrics_summary, h]
  · simp [get_metrics_summary, h]
  · cases htc : db.tool_calls <;> simp [get_metrics_summary, h, htc]
  · cases hc : db.conversations <;> simp [get_metrics_summary, h, hc]
  · cases htr : db.tool_results <;> simp [get_metrics_summary, h, htr]
  · intro s' e'
    refine ⟨?_, ?_, ?_⟩ <;> simp [get_metrics_summary, h]

/-- Witness for C5's amended theorem: the sample database's tool-call count
ignores the bounds. -/
theorem c5_summary_date_filter_witness :
    (get_metrics_summary c5Db (some "2025-01-01") none).total_tool_calls
      = ((c5Db.tool_calls).getD []).length :=
  (c5_summary_date_filter c5Db (some "2025-01-01") none [c5Response] rfl).2.2.2.2.2.1

/-- Witness for C3's amended theorem: two filters with the same shape but
different model values yield identical SQL text. -/
theorem c3_amended_witness :
    responses_count_sql ⟨some "gpt-4", none, none, none⟩
      = responses_count_sql ⟨some "claude", none, none, none⟩ :=
  (c3_amended_sql_parameterisation.1 ⟨some "gpt-4", none, none, none⟩
    ⟨some "claude", none, none, none⟩ (by decide)).1

/-- C6 counterexample: the search endpoint checks only the full-text index
table; with neither `responses_fts` nor `responses` present, the fallback's
`FROM responses` raises instead of returning an empty result — table absence
is not checked before every dependent query. -/
theorem c6_counterexample :
    search c6EmptyDb "x" 50 0 = .error "no such table: responses" := rfl

/-- C6 as amended: the endpoints return empty results, not errors, for the
optional tables they explicitly check — `tools` in the tool listing,
`responses` in the response listing and both metrics operations,
`prompt_attachments` in the attachment listing — and search never errors
when the `responses` table is present; but the search fallback queries
`responses` unconditionally, so its absence during search is an error. -/
theorem c6_missing_table_handling :
    (∀ db : DbState, db.tools = none → list_tools db = .ok { items := [], total := 0 }) ∧
    (∀ (db : DbState) (f : ResponseFilter) (limit offset : Nat), db.responses = none →
      list_responses db f limit offset =
        .ok { items := [], total := 0, limit := limit, offset := offset }) ∧
    (∀ (db : DbState) (s e : Option String), db.responses = none →
      get_metrics_summary db s e = MetricsSummary.empty ∧
      get_latency_distribution db s e = []) ∧
    (∀ (db : DbState) (rid : String), db.prompt_attachments = none →
      get_response_attachments db rid = .ok []) ∧
    (∀ (db : DbState) (q : String) (limit offset : Nat) (rs : List ResponseRow),
      db.responses = some rs → ∃ r, search db q limit offset = .ok r) := by
  refine ⟨?_, ?_, ?_, ?_, ?_⟩
  · intro db h; simp [list_tools, h]
  · intro db f limit offset h; simp [list_responses, h]
  · intro db s e h
    exact ⟨by simp [get_metrics_summary, h], by simp [get_latency_distribution, h]⟩
  · intro db rid h; simp [get_response_attachments, h]
  · intro db q limit offset rs h
    have hstep : search_like db q limit offset =
        .ok { query := q
              results := (((orderByDatetimeDesc
                  (rs.filter (likeRowMatch q.toList))).drop offset).take limit).map
                (rowToSearchResult q)
              total := (rs.filter (likeRowMatch q.toList)).length
              limit := limit, offset := offset } := by
      unfold search_like
      rw [h]
      rfl
    have hlike : ∃ r, search_like db q limit offset = .ok r := ⟨_, hstep⟩
    cases hfts : db.responses_fts with
    | false => simpa [search, hfts] using hlike
    | true =>
      cases hr : search_fts db q limit offset with
      | error e => simpa [search, hfts, hr] using hlike
      | ok r => exact ⟨r, by simp [search, hfts, hr]⟩

/-- Witness for C6's amended theorem: tool listing on a database without a
`tools` table, and search on a database with `responses` but no index. -/
theorem c6_missing_table_handling_witness :
    list_tools c6EmptyDb = .ok { items := [], total := 0 } ∧
    ∃ r, search sampleDb "hello" 50 0 = .ok r :=
  ⟨c6_missing_table_handling.1 c6EmptyDb rfl,
   c6_missing_table_handling.2.2.2.2 sampleDb "hello" 50 0 [sampleResponse] rfl⟩

/-- Altering only the stored binary `content` of attachment rows commutes
with the id lookup, because the lookup reads only `id`. -/
theorem lookupAttachment_map (g : AttachmentRow → Option String)
    (atts : List AttachmentRow) (aid : String) :
    lookupAttachment (atts.map (fun a => { a with content := g a })) aid
      = (lookupAttachment atts aid).map (fun a => { a with content := g a }) := by
  unfold lookupAttachment
  rw [List.filter_map, List.head?_map]
  rfl

/-- C9: the attachment-listing payload carries only `id`, `type`, `path`,
`url` and `order` — the binary `content` column is dropped from every
returned object — so for every response id the output is unchanged under any
change to the stored binary content. -/
theorem c9_attachments_content_invariant (db : DbState) (rid : String)
    (g : AttachmentRow → Option String) :
    get_response_attachments (mapAttachmentContent g db) rid
      = get_response_attachments db rid := by
  unfold get_response_attachments mapAttachmentContent
  cases hpa : db.prompt_attachments with
  | none => simp
  | some links =>
    simp only []
    by_cases hl : links.filter (fun l => l.response_id == rid) = []
    · simp [hl]
    · cases ha : db.attachments with
      | none => simp [hl, ha, getTable]
      | some atts =>
        simp only [hl, ha, Option.map_some', getTable, if_false,
          Except.bind, bind, pure, Except.pure]
        simp only [lookupAttachment_map, Option.map_map]
        rfl

theorem charBeq_comm (a b : Char) : (a == b) = (b == a) := by
  by_cases h : a = b
  · subst h; rfl
  · rw [beq_eq_false_iff_ne.mpr h, beq_eq_false_iff_ne.mpr (Ne.symm h)]

/-- Equation: an empty pattern matches only the empty text. -/
theorem likeMatch_nil (ts : List Char) : likeMatch [] ts = ts.isEmpty := rfl

/-- One definitional unfolding of `likeMatch` on a cons pattern. -/
theorem likeMatch_cons (c : Char) (ps ts : List Char) :
    likeMatch (c :: ps) ts =
      (if c = '%' then (tails ts).any (fun ts2 => likeMatch ps ts2)
       else if c = '_' then
         match ts with
         | [] => false
         | _ :: ts2 => likeMatch ps ts2
       else if c = '\\' then
         match ps, ts with
         | [], _ => false
         | _ :: _, [] => false
         | c2 :: ps2, t :: ts2 => (t.toLower == c2.toLower) && likeMatch ps2 ts2
       else
         match ts with
         | [] => false
         | t :: ts2 => (t.toLower == c.toLower) && likeMatch ps ts2) := by
  cases ps <;> cases ts <;> rfl

/-- Equation: `%` matches when the rest matches some suffix. -/
theorem likeMatch_pct (ps ts : List Char) :
    likeMatch ('%' :: ps) ts = (tails ts).any (fun t2 => likeMatch ps t2) := by
  rw [likeMatch_cons, if_pos rfl]

/-- Equation: an escaped character matches itself literally. -/
theorem likeMatch_escaped_nil (c2 : Char) (ps2 : List Char) :
    likeMatch ('\\' :: c2 :: ps2) [] = false := by
  rw [likeMatch_cons, if_neg (by decide), if_neg (by decide), if_pos rfl]

theorem likeMatch_escaped_cons (c2 : Char) (ps2 : List Char) (t : Char)
    (ts2 : List Char) :
    likeMatch ('\\' :: c2 :: ps2) (t :: ts2)
      = ((t.toLower == c2.toLower) && likeMatch ps2 ts2) := by
  rw [likeMatch_cons, if_neg (by decide), if_neg (by decide), if_pos rfl]

/-- Equation: an ordinary pattern character compares case-insensitively. -/
theorem likeMatch_ord_nil (c : Char) (ps : List Char)
    (h1 : c ≠ '%') (h2 : c ≠ '_') (h3 : c ≠ '\\') :
    likeMatch (c :: ps) [] = false := by
  rw [likeMatch_cons, if_neg h1, if_neg h2, if_neg h3]

theorem likeMatch_ord_cons (c : Char) (ps : List Char) (t : Char)
    (ts2 : List Char) (h1 : c ≠ '%') (h2 : c ≠ '_') (h3 : c ≠ '\\') :
    likeMatch (c :: ps) (t :: ts2)
      = ((t.toLower == c.toLower) && likeMatch ps ts2) := by
  rw [likeMatch_cons, if_neg h1, if_neg h2, if_neg h3]

/-- An exhausted pattern after `%` matches the empty suffix. -/
theorem likeMatch_nil_tails (ts : List Char) :
    (tails ts).any (fun t2 => likeMatch [] t2) = true := by
  induction ts with
  | nil => rfl
  | cons x xs ih => simp only [tails, List.any_cons, ih, Bool.or_true]

/-- The escaped query followed by `%` matches a text iff the lowered query is
a prefix of the lowered text, provided the query has no backslash (the
escape character, which `_search_like` does not escape). -/
theorem likeMatch_esc_startsWith (q : List Char) (h : '\\' ∉ q) (ts : List Char) :
    likeMatch (escLike q ++ ['%']) ts
      = (lowerList q).isPrefixOf (lowerList ts) := by
  induction q generalizing ts with
  | nil =>
    rw [show escLike [] ++ ['%'] = ['%'] from rfl, likeMatch_pct,
      likeMatch_nil_tails]
    cases ts <;> rfl
  | cons c q' ih =>
    have hc : ¬c = '\\' := fun hcc => h (hcc ▸ List.mem_cons_self c q')
    have hq' : '\\' ∉ q' := fun hm => h (List.mem_cons_of_mem c hm)
    by_cases hsp : c = '%' ∨ c = '_'
    · have hesc : escLike (c :: q') ++ ['%']
          = '\\' :: c :: (escLike q' ++ ['%']) := by
        rcases hsp with h1 | h1 <;> subst h1 <;> rfl
      rw [hesc]
      cases ts with
      | nil => rw [likeMatch_escaped_nil]; rfl
      | cons t ts2 =>
        rw [likeMatch_escaped_cons, ih hq']
        simp only [lowerList, List.map_cons, List.isPrefixOf, charBeq_comm]
    · push_neg at hsp
      have hesc : escLike (c :: q') ++ ['%'] = c :: (escLike q' ++ ['%']) := by
        simp [escLike, hsp.1, hsp.2]
      rw [hesc]
      cases ts with
      | nil => rw [likeMatch_ord_nil c _ hsp.1 hsp.2 hc]; rfl
      | cons t ts2 =>
        rw [likeMatch_ord_cons c _ t ts2 hsp.1 hsp.2 hc, ih hq']
        simp only [lowerList, List.map_cons, List.isPrefixOf, charBeq_comm]

/-- `str.find` succeeds exactly when the needle is a prefix of some suffix. -/
theorem findSub_isSome (hay needle : List Char) :
    (findSub hay needle).isSome
      = (tails hay).any (fun t2 => needle.isPrefixOf t2) := by
  induction hay with
  | nil =>
    cases needle <;> rfl
  | cons x hs ih =>
    by_cases hp : needle.isPrefixOf (x :: hs)
    · simp [findSub, tails, hp]
    · simp [findSub, tails, hp, ih, Option.isSome_map']

/-- Lowercasing commutes with taking suffixes. -/
theorem tails_map (f : α → β) (l : List α) :
    tails (l.map f) = (tails l).map (List.map f) := by
  induction l with
  | nil => rfl
  | cons x xs ih => simp [tails, ih]

/-- Core LIKE lemma: for a backslash-free query, the constructed pattern
`%escaped%` under `ESCAPE '\'` matches a text iff the text contains the
query as a case-insensitive substring. -/
theorem likeMatch_pattern_contains (q ts : List Char) (h : '\\' ∉ q) :
    likeMatch (likePattern q) ts = containsCI ts q := by
  have hfun : (fun ts2 => likeMatch (escLike q ++ ['%']) ts2)
      = (fun ts2 : List Char => (lowerList q).isPrefixOf (lowerList ts2)) :=
    funext (fun ts2 => likeMatch_esc_startsWith q h ts2)
  rw [likePattern, likeMatch_pct, hfun, containsCI, findSub_isSome,
    lowerList, lowerList, tails_map, List.any_map]
  rfl

/-- Row-level form of the LIKE lemma. -/
theorem likeRowMatch_eq_ciRowMatch (query : String) (h : '\\' ∉ query.toList)
    (r : ResponseRow) : likeRowMatch query.toList r = ciRowMatch query r := by
  unfold likeRowMatch ciRowMatch
  cases r.prompt <;> cases r.response <;>
    simp only [likeMatch_pattern_contains _ _ h]

/-- C8 counterexample: `_search_like` escapes `%` and `_` but not the escape
character itself, so the query `"\"` produces the pattern `%\%%`, whose `\%`
matches a literal `%`: searching for a backslash returns the row whose
prompt is `"100%"` even though that text contains no backslash — the result
set is not the set of case-insensitive substring matches for every query. -/
theorem c8_counterexample :
    ((search_like c8Db "\\" 50 0).toOption.map (fun r => r.total) = some 1) ∧
    [c8Row].countP (ciRowMatch "\\") = 0 := by decide

/-- C8 as amended: for every query string containing no backslash, the
fallback search returns exactly the responses whose prompt or response
contains the query as a case-insensitive substring (count and page computed
from that set, ordered by datetime descending); the `%`/`_` escaping
prevents unintended wildcarding for such queries, but the escape character
`\` itself is not escaped, so a query containing a backslash changes the
match semantics instead of being matched literally. -/
theorem c8_like_fallback_substring (db : DbState) (query : String)
    (limit offset : Nat) (rs : List ResponseRow) (h : db.responses = some rs)
    (hq : '\\' ∉ query.toList) :
    search_like db query limit offset =
      .ok { query := query
            results := (((orderByDatetimeDesc
                (rs.filter (ciRowMatch query))).drop offset).take limit).map
              (rowToSearchResult query)
            total := (rs.filter (ciRowMatch query)).length
            limit := limit, offset := offset } := by
  have hpred : rs.filter (likeRowMatch query.toList) = rs.filter (ciRowMatch query) :=
    List.filter_congr (fun r _ => likeRowMatch_eq_ciRowMatch query hq r)
  unfold search_like
  rw [h]
  simp only [getTable, Except.bind, bind, pure, Except.pure, hpred]

/-- Witness for C8's amended theorem: searching for `"o w"` in the sample
database finds the row whose prompt is `"hello world"`. -/
theorem c8_like_fallback_substring_witness :
    search_like sampleDb "o w" 50 0 =
      .ok { query := "o w"
            results := (((orderByDatetimeDesc
                (([sampleResponse]).filter (ciRowMatch "o w"))).drop 0).take 50).map
              (rowToSearchResult "o w")
            total := (([sampleResponse]).filter (ciRowMatch "o w")).length
            limit := 50, offset := 0 } :=
  c8_like_fallback_substring sampleDb "o w" 50 0 [sampleResponse] rfl (by decide)
